import Mathlib

/-!
Verification of the scratch-ticket expected-value (EV) engines of this
repository: `computeEV` from `src/script.js` (single-game mode) and
`adjustValue` / `computeOverview` / `renderTable` from `src/scratchers.js`
(multi-game comparative mode).

Modelling conventions.

* JavaScript IEEE-754 doubles are modelled as exact rationals together with an
  explicit `nan` value (`JSNum`).  Every claim under verification is about the
  exact formula chain (products, quotients, sums, comparisons and `NaN`
  propagation), none is about rounding, so exact rationals are adequate.
  JavaScript comparisons (`<`, `<=`, `===`) are false whenever an operand is
  `NaN`; arithmetic propagates `NaN`.  IEEE infinities are not modelled:
  in the translated code every division's denominator is checked to be
  nonzero (or the quotient is guarded by `!M || M <= 0` style tests) before
  the result is consumed, so an infinity can only arise from a division by
  zero, which the model maps to `nan` (see `JSNum.div`).
* JavaScript truthiness of a number (`!x` is true exactly for `0`, `-0` and
  `NaN`) is `JSNum.Truthy`.
* Dynamically typed JSON fields of the multi-game engine are modelled by
  `JSVal` (a number, a string, or `undefined`) and `Option` fields.
* In-place mutation (`computeEV` resolves ticket-tier values on the caller's
  game record) is modelled by explicit state passing: `computeEV` returns the
  updated game record next to its outcome.
* String helpers (`trim`, `toLowerCase`, `replace`, `parseFloat`, the
  `1 in N` regular expression) are modelled directly on `List Char` with
  ASCII semantics, which covers the engine's inputs.
-/

/-- A JavaScript number: an exact rational or `NaN`. -/
inductive JSNum where
  | nan : JSNum
  | num : ℚ → JSNum
deriving DecidableEq

namespace JSNum

/-- JavaScript `isNaN` on a number. -/
def isNaN : JSNum → Bool
  | nan => true
  | num _ => false

/-- JavaScript truthiness of a number: `0`, `-0` and `NaN` are falsy. -/
def Truthy : JSNum → Prop
  | nan => False
  | num q => q ≠ 0

instance : DecidablePred Truthy
  | nan => isFalse fun h => h
  | num q => inferInstanceAs (Decidable (q ≠ 0))

/-- JavaScript `<` on numbers: false whenever an operand is `NaN`. -/
def Lt : JSNum → JSNum → Prop
  | num a, num b => a < b
  | num _, nan => False
  | nan, num _ => False
  | nan, nan => False

instance : (x y : JSNum) → Decidable (Lt x y)
  | num a, num b => inferInstanceAs (Decidable (a < b))
  | num _, nan => isFalse fun h => h
  | nan, num _ => isFalse fun h => h
  | nan, nan => isFalse fun h => h

/-- JavaScript `<=` on numbers: false whenever an operand is `NaN`. -/
def Le : JSNum → JSNum → Prop
  | num a, num b => a ≤ b
  | num _, nan => False
  | nan, num _ => False
  | nan, nan => False

instance : (x y : JSNum) → Decidable (Le x y)
  | num a, num b => inferInstanceAs (Decidable (a ≤ b))
  | num _, nan => isFalse fun h => h
  | nan, num _ => isFalse fun h => h
  | nan, nan => isFalse fun h => h

/-- JavaScript strict equality `===` on numbers: `NaN === x` is false. -/
def Seq : JSNum → JSNum → Prop
  | num a, num b => a = b
  | num _, nan => False
  | nan, num _ => False
  | nan, nan => False

instance : (x y : JSNum) → Decidable (Seq x y)
  | num a, num b => inferInstanceAs (Decidable (a = b))
  | num _, nan => isFalse fun h => h
  | nan, num _ => isFalse fun h => h
  | nan, nan => isFalse fun h => h

/-- JavaScript addition; `NaN` is absorbing. -/
def add : JSNum → JSNum → JSNum
  | num a, num b => num (a + b)
  | _, _ => nan

/-- JavaScript subtraction; `NaN` is absorbing. -/
def sub : JSNum → JSNum → JSNum
  | num a, num b => num (a - b)
  | _, _ => nan

/-- JavaScript multiplication; `NaN` is absorbing. -/
def mul : JSNum → JSNum → JSNum
  | num a, num b => num (a * b)
  | _, _ => nan

/-- JavaScript division; `NaN` is absorbing.  A zero divisor yields `nan`
(JavaScript would yield an infinity or `NaN`; in the translated code every
division that feeds a result is guarded so that the divisor is nonzero). -/
def div : JSNum → JSNum → JSNum
  | num a, num b => if b = 0 then nan else num (a / b)
  | _, _ => nan

/-- JavaScript `Math.abs`. -/
def abs : JSNum → JSNum
  | nan => nan
  | num q => num |q|

end JSNum

/-- A normalized prize tier as consumed by `computeEV` (`src/script.js`):
fields `prize`, `value`, `isTicket`, `odds`, `remaining`, `total` of the
objects built by `collectManualInput` / `parseCalotteryHtml`. -/
structure Tier where
  prize : String
  value : JSNum
  isTicket : Bool
  odds : JSNum
  remaining : JSNum
  total : JSNum
deriving DecidableEq

/-- The part of a game record read by `computeEV`: `game.ticketPrice` and
`game.tiers` (the other fields — name, number, claimed odds — are only
echoed by the rendering layer). -/
structure Game where
  ticketPrice : JSNum
  tiers : List Tier
deriving DecidableEq

/-- The options record built by `getOptions` in both source files.
`taxRate` is `parseFloat(taxRateInput.value) || 24`, hence never `NaN`. -/
structure EVOptions where
  ignoreUnder500 : Bool
  applyTax : Bool
  taxRate : ℚ
deriving DecidableEq

/-- One entry of the `tierResults` array built by `computeEV`
(`src/script.js` lines 322–334).  The display-only string `oddsText`
(a pure formatting of `odds`) is not carried. -/
structure TierResult where
  prize : String
  value : JSNum
  remaining : JSNum
  total : JSNum
  parsedN : JSNum
  tierTicketEst : JSNum
  probability : JSNum
  adjustedValue : JSNum
  evContribution : JSNum
  isTicket : Bool
deriving DecidableEq

/-- The success record returned by `computeEV` (`src/script.js` lines 339–346). -/
structure EVResult where
  ticketPrice : JSNum
  M : JSNum
  method : String
  evGross : JSNum
  evNet : JSNum
  tiers : List TierResult
deriving DecidableEq

/-- The outcome of `computeEV`: either an `{ error: ... }` record or a
result record.  `computeEV` never throws; both cases are plain values. -/
inductive EVOut where
  | err : String → EVOut
  | ok : EVResult → EVOut
deriving DecidableEq

namespace EVOut

/-- Whether the outcome is a success record (not an `{ error }` record). -/
def isOk : EVOut → Bool
  | ok _ => true
  | err _ => false

/-- The `M` field of a success outcome. -/
def poolOf : EVOut → Option JSNum
  | ok r => some r.M
  | err _ => none

/-- The `method` field of a success outcome. -/
def methodOf : EVOut → Option String
  | ok r => some r.method
  | err _ => none

/-- The `evGross` field of a success outcome. -/
def grossOf : EVOut → Option JSNum
  | ok r => some r.evGross
  | err _ => none

/-- The `evNet` field of a success outcome. -/
def netOf : EVOut → Option JSNum
  | ok r => some r.evNet
  | err _ => none

/-- The `tiers` field of a success outcome. -/
def tiersOf : EVOut → Option (List TierResult)
  | ok r => some r.tiers
  | err _ => none

end EVOut

/-- The error message for a missing ticket price or an empty tier list
(`src/script.js` line 262). -/
def missingMsg : String := "Need ticket price and at least one prize tier."

/-- The error message when no estimation strategy yields a usable pool
(`src/script.js` line 298). -/
def estimateMsg : String := "Unable to estimate total remaining tickets."

/-- One step of the ticket-value resolution loop of `computeEV`
(`src/script.js` lines 266–268): `if (t.isTicket) t.value = ticketPrice`. -/
def resolveTier (price : JSNum) (t : Tier) : Tier :=
  if t.isTicket then { t with value := price } else t

/-- The whole in-place resolution loop, as a pure map over the tier list. -/
def resolveTicketValues (price : JSNum) (ts : List Tier) : List Tier :=
  ts.map (resolveTier price)

/-- The predicate of the `tiers.find(...)` call selecting the anchor tier
(`src/script.js` line 274):
`t.isTicket && t.total > 0 && t.remaining > 0 && !isNaN(t.odds)`. -/
def AnchorCond (t : Tier) : Prop :=
  t.isTicket = true ∧ JSNum.Lt (.num 0) t.total ∧ JSNum.Lt (.num 0) t.remaining ∧
    t.odds.isNaN = false

instance : DecidablePred AnchorCond := fun _ =>
  inferInstanceAs (Decidable (_ ∧ _ ∧ _ ∧ _))

/-- `tiers.find(...)`: first tier satisfying the anchor condition. -/
def findAnchor : List Tier → Option Tier
  | [] => none
  | t :: ts => if AnchorCond t then some t else findAnchor ts

/-- Method A, the ticket-tier anchor (`src/script.js` lines 274–280):
`M0 = total * odds`, `f = remaining / total`, `M = M0 * f`; `null` when no
tier matches. -/
def anchorM (ts : List Tier) : Option JSNum :=
  match findAnchor ts with
  | some t => some ((t.total.mul t.odds).mul (t.remaining.div t.total))
  | none => none

/-- One tier's contribution to Method B (`src/script.js` lines 284–286):
the filter condition `t.remaining > 0 && !isNaN(t.odds) && t.odds > 0`
followed by the map `t.remaining * t.odds`.  The JavaScript comparisons are
false on `NaN`, so the condition forces both `remaining` and `odds` to be
numeric. -/
def tierEstimate1 (t : Tier) : Option ℚ :=
  match t.remaining, t.odds with
  | .num r, .num o => if 0 < r ∧ 0 < o then some (r * o) else none
  | _, _ => none

/-- The per-tier pool estimates of Method B: the source's
`tiers.filter(...).map(...)` fused into one pass. -/
def tierEstimates (ts : List Tier) : List ℚ :=
  ts.filterMap tierEstimate1

/-- `estimates.sort((a, b) => a - b)`: ascending numeric sort.  The sorted
arrangement of rationals is unique, so a stable insertion sort produces the
same list as the JavaScript sort. -/
def sortedAsc (l : List ℚ) : List ℚ :=
  l.insertionSort (· ≤ ·)

/-- The median step of Method B (`src/script.js` lines 288–292):
`mid = Math.floor(n / 2)`; mean of the two middle sorted values for even
`n`, the middle sorted value for odd `n`.  The source only indexes a
nonempty array; the model totalizes the indexing with a default of `0`. -/
def medianQ (l : List ℚ) : ℚ :=
  if (sortedAsc l).length % 2 = 0 then
    ((sortedAsc l).getD ((sortedAsc l).length / 2 - 1) 0 +
      (sortedAsc l).getD ((sortedAsc l).length / 2) 0) / 2
  else (sortedAsc l).getD ((sortedAsc l).length / 2) 0

/-- The pool estimation phase of `computeEV` (`src/script.js` lines 270–295):
Method A first; if the anchor is missing, falsy or `<= 0`, Method B replaces
it whenever at least one per-tier estimate exists.  Returns the pair
`(M, method)` exactly as left in the source's mutable locals. -/
def estimatePool (ts : List Tier) : Option JSNum × String :=
  match anchorM ts with
  | some m =>
    if ¬ JSNum.Truthy m ∨ JSNum.Le m (.num 0) then
      match tierEstimates ts with
      | [] => (some m, "Ticket-tier anchor")
      | e :: es => (some (.num (medianQ (e :: es))), "Median fallback")
    else (some m, "Ticket-tier anchor")
  | none =>
    match tierEstimates ts with
    | [] => (none, "")
    | e :: es => (some (.num (medianQ (e :: es))), "Median fallback")

/-- The per-tier body of the result loop of `computeEV` (`src/script.js`
lines 305–334): probability, the two sequential adjustments (threshold then
tax, both skipped for ticket tiers), contribution, and the echoed fields. -/
def tierResult (o : EVOptions) (M : JSNum) (t : Tier) : TierResult :=
  let p := t.remaining.div M
  let a1 :=
    if o.ignoreUnder500 = true ∧ t.isTicket = false ∧
        JSNum.Lt (.num 0) t.value ∧ JSNum.Lt t.value (.num 500) then
      JSNum.num 0
    else t.value
  let a2 :=
    if o.applyTax = true ∧ t.isTicket = false ∧ JSNum.Lt (.num 0) a1 then
      a1.mul (.num (1 - o.taxRate / 100))
    else a1
  { prize := t.prize
    value := t.value
    remaining := t.remaining
    total := t.total
    parsedN := t.odds
    tierTicketEst := t.remaining.mul (if JSNum.Truthy t.odds then t.odds else .num 0)
    probability := p
    adjustedValue := a2
    evContribution := p.mul a2
    isTicket := t.isTicket }

/-- `evGross`: the running sum of the contributions, in tier order. -/
def sumContrib (l : List TierResult) : JSNum :=
  (l.map (·.evContribution)).foldl JSNum.add (.num 0)

/-- The success record of `computeEV` (`src/script.js` lines 301–346): the
result loop is a map producing `tierResults`, `evGross` accumulates the
contributions, `evNet = evGross - ticketPrice`. -/
def mkEVResult (price M : JSNum) (method : String) (ts : List Tier)
    (o : EVOptions) : EVResult :=
  let trs := ts.map (tierResult o M)
  let gross := sumContrib trs
  { ticketPrice := price
    M := M
    method := method
    evGross := gross
    evNet := gross.sub price
    tiers := trs }

/-- The outcome `computeEV` produces once the precondition guard has passed
and the tier values are resolved: the final guard `if (!M || M <= 0)`
(`src/script.js` lines 297–299) yields the estimation-failure error,
otherwise the result record is built. -/
def evOutcome (price : JSNum) (ts : List Tier) (o : EVOptions) : EVOut :=
  match estimatePool ts with
  | (some M, method) =>
    if ¬ JSNum.Truthy M ∨ JSNum.Le M (.num 0) then .err estimateMsg
    else .ok (mkEVResult price M method ts o)
  | (none, _) => .err estimateMsg

/-- `computeEV` (`src/script.js` lines 256–347).  The precondition guard
(`!ticketPrice || tiers.length === 0`) runs before the in-place ticket-value
resolution, so on that failure the game record is returned unchanged; on
every other path the returned game record carries the resolved tier list
(the documented side effect on the caller's record). -/
def computeEV (g : Game) (o : EVOptions) : Game × EVOut :=
  if ¬ JSNum.Truthy g.ticketPrice ∨ g.tiers = [] then
    (g, .err missingMsg)
  else
    ({ g with tiers := resolveTicketValues g.ticketPrice g.tiers },
      evOutcome g.ticketPrice (resolveTicketValues g.ticketPrice g.tiers) o)

/-!
Multi-game comparative engine, from `src/scratchers.js`.  Its input is
user-pasted JSON, so a tier field can be a number, a string or absent.
-/

/-- A dynamically typed JSON field value: a number, a string, or absent
(`undefined`).  JSON cannot encode `NaN`, so the numeric case is a plain
rational. -/
inductive JSVal where
  | vnum : ℚ → JSVal
  | vstr : String → JSVal
  | vundef : JSVal
deriving DecidableEq

/-- Numeric value of a decimal digit character. -/
def digitVal (c : Char) : ℕ := c.toNat - 48

/-- Value of a list of decimal digit characters, most significant first. -/
def natOfDigits (ds : List Char) : ℕ :=
  ds.foldl (fun n c => 10 * n + digitVal c) 0

/-- The character class of `replace(/[$,\s]/g, '')` in `parseCurrency`. -/
def isMoneyJunk (c : Char) : Bool :=
  c == '$' || c == ',' || c.isWhitespace

/-- ASCII `toLowerCase` of one character. -/
def lowerChar (c : Char) : Char :=
  if 'A' ≤ c ∧ c ≤ 'Z' then Char.ofNat (c.toNat + 32) else c

/-- JavaScript `String.prototype.trim`, on the character list. -/
def trimL (cs : List Char) : List Char :=
  ((cs.dropWhile Char.isWhitespace).reverse.dropWhile Char.isWhitespace).reverse

/-- Whether `pat` occurs at the head of `hay`. -/
def startsWithL : List Char → List Char → Bool
  | _, [] => true
  | [], _ :: _ => false
  | a :: as, b :: bs => a == b && startsWithL as bs

/-- JavaScript `String.prototype.includes`, on character lists. -/
def strContainsL : List Char → List Char → Bool
  | [], pat => pat.isEmpty
  | c :: rest, pat => startsWithL (c :: rest) pat || strContainsL rest pat

/-- The exponent part of `parseFloat` after the `e`/`E`: an optional sign and
digits; when no digit follows, the exponent marker is not part of the match
and the exponent is `0`. -/
def parseExpPart (cs : List Char) : ℤ :=
  match cs with
  | '-' :: r =>
    if (r.takeWhile Char.isDigit).isEmpty then 0
    else -(natOfDigits (r.takeWhile Char.isDigit) : ℤ)
  | '+' :: r =>
    if (r.takeWhile Char.isDigit).isEmpty then 0
    else (natOfDigits (r.takeWhile Char.isDigit) : ℤ)
  | r =>
    if (r.takeWhile Char.isDigit).isEmpty then 0
    else (natOfDigits (r.takeWhile Char.isDigit) : ℤ)

/-- Ten to an integer power, as a rational. -/
def tenPow (e : ℤ) : ℚ :=
  if 0 ≤ e then (10 : ℚ) ^ e.toNat else 1 / (10 : ℚ) ^ (-e).toNat

/-- The body of `parseFloat` after an optional sign: integer digits, an
optional fraction, an optional exponent; the longest valid numeric prefix is
converted and trailing garbage is ignored; no digit at all yields `NaN`.
(`parseFloat` also accepts the literal `Infinity`, which is outside this
model and mapped to `NaN`; no infinity is representable here.) -/
def parseFloatSigned (cs : List Char) : JSNum :=
  let ip := cs.takeWhile Char.isDigit
  let rest := cs.dropWhile Char.isDigit
  let fp : List Char × List Char :=
    match rest with
    | '.' :: r => (r.takeWhile Char.isDigit, r.dropWhile Char.isDigit)
    | _ => ([], rest)
  if ip.isEmpty ∧ fp.1.isEmpty then .nan
  else
    let mant : ℚ := (natOfDigits ip : ℚ) + (natOfDigits fp.1 : ℚ) / (10 : ℚ) ^ fp.1.length
    let e : ℤ :=
      match fp.2 with
      | 'e' :: r => parseExpPart r
      | 'E' :: r => parseExpPart r
      | _ => 0
    .num (mant * tenPow e)

/-- JavaScript `parseFloat` on a character list: leading whitespace, an
optional sign, then the signed body. -/
def parseFloatL (cs : List Char) : JSNum :=
  match cs.dropWhile Char.isWhitespace with
  | '-' :: r =>
    match parseFloatSigned r with
    | .num q => .num (-q)
    | .nan => .nan
  | '+' :: r => parseFloatSigned r
  | r => parseFloatSigned r

/-- `parseCurrency` (`src/scratchers.js` lines 26–30, identical in
`src/script.js` lines 69–74): a number passes through, a falsy value yields
`NaN`, otherwise `$`, `,` and whitespace are stripped and the rest is fed to
`parseFloat`. -/
def parseCurrency : JSVal → JSNum
  | .vnum q => .num q
  | .vundef => .nan
  | .vstr s =>
    if s = "" then .nan
    else parseFloatL (s.data.filter (fun c => !isMoneyJunk c))

/-- The capture class `[\d,.]` of the odds regular expression. -/
def isOddsChar (c : Char) : Bool :=
  c.isDigit || c == ',' || c == '.'

/-- One attempt of the regular expression `/1\s+in\s+([\d,.]+)/i` at the
head of the list: `1`, whitespace, `in` (case-insensitive), whitespace, then
the greedy capture. -/
def oneInCaptureAt (cs : List Char) : Option (List Char) :=
  match cs with
  | '1' :: rest =>
    let r1 := rest.dropWhile Char.isWhitespace
    if rest.length = r1.length then none
    else
      match r1 with
      | ci :: cn :: r2 =>
        if (ci = 'i' ∨ ci = 'I') ∧ (cn = 'n' ∨ cn = 'N') then
          let r3 := r2.dropWhile Char.isWhitespace
          if r2.length = r3.length then none
          else
            let cap := r3.takeWhile isOddsChar
            if cap.isEmpty then none else some cap
        else none
      | _ => none
  | _ => none

/-- Left-to-right search of the odds regular expression, as a JavaScript
regex engine performs it: first position whose attempt succeeds wins. -/
def oneInSearch : List Char → Option (List Char)
  | [] => none
  | c :: rest =>
    match oneInCaptureAt (c :: rest) with
    | some cap => some cap
    | none => oneInSearch rest

/-- `parseOdds` (`src/scratchers.js` lines 32–38): numbers pass through,
falsy values yield `NaN`, a `1 in N` match feeds its capture to
`parseCurrency`, anything else is fed whole to `parseCurrency`. -/
def parseOdds : JSVal → JSNum
  | .vnum q => .num q
  | .vundef => .nan
  | .vstr s =>
    if s = "" then .nan
    else
      match oneInSearch (trimL s.data) with
      | some cap => parseCurrency (.vstr (String.mk cap))
      | none => parseCurrency (.vstr s)

/-- `isTicketTier` (`src/scratchers.js` lines 40–46): only strings can be
ticket labels; the trimmed lower-cased label must be `ticket`, `free ticket`
or contain `free ticket`. -/
def isTicketTier : JSVal → Bool
  | .vstr s =>
    let t := (trimL s.data).map lowerChar
    t == "ticket".data || t == "free ticket".data || strContainsL t "free ticket".data
  | _ => false

/-- A raw tier of the multi-game JSON input, with the dynamically typed
fields `computeOverview` reads: `label`, `prize`, `isTicket` (absent is
falsy, modelled `false`), `value`, `odds`, `remaining`, `total`, `initial`. -/
structure OTier where
  label : Option String
  prize : Option String
  isTicketF : Bool
  value : JSVal
  odds : JSVal
  remaining : Option ℚ
  total : Option ℚ
  initial : Option ℚ
deriving DecidableEq

/-- A game record of the multi-game JSON input.  `price` is a number
(a missing price is modelled as `0`, which is equally falsy); `claimedOdds`
is a string when present. -/
structure OGame where
  name : Option String
  number : Option String
  price : JSNum
  claimedOdds : Option String
  tiers : Option (List OTier)
deriving DecidableEq

/-- A resolved tier, the element type of the `resolved` array of
`computeOverview` (`src/scratchers.js` lines 72–80). -/
structure RTier where
  label : String
  rawValue : JSNum
  odds : JSNum
  remaining : ℚ
  total : ℚ
  isTicket : Bool
deriving DecidableEq

/-- One row of the overview table, the record returned by `computeOverview`
(`src/scratchers.js` lines 124–134). -/
@[ext]
structure OResult where
  name : Option String
  number : String
  price : JSNum
  claimedOddsText : String
  claimedOddsVal : JSNum
  calcOddsVal : JSNum
  claimedEV : JSNum
  calcEV : JSNum
  deltaPercent : JSNum
deriving DecidableEq

/-- JavaScript `x || d` for an optional number: `undefined` and `0` are
falsy. -/
def orQ (x : Option ℚ) (d : ℚ) : ℚ :=
  match x with
  | some q => if q = 0 then d else q
  | none => d

/-- JavaScript `x || d` for an optional string: `undefined` and `""` are
falsy. -/
def orStr (x : Option String) (d : String) : String :=
  match x with
  | some s => if s = "" then d else s
  | none => d

/-- `adjustValue` (`src/scratchers.js` lines 50–59): the threshold zeroing,
then the tax discount, both only for non-ticket tiers with a positive
current value. -/
def adjustValue (value : JSNum) (isTicket : Bool) (o : EVOptions) : JSNum :=
  let a1 :=
    if o.ignoreUnder500 = true ∧ isTicket = false ∧
        JSNum.Lt (.num 0) value ∧ JSNum.Lt value (.num 500) then
      JSNum.num 0
    else value
  if o.applyTax = true ∧ isTicket = false ∧ JSNum.Lt (.num 0) a1 then
    a1.mul (.num (1 - o.taxRate / 100))
  else a1

/-- The body of the `resolved` map of `computeOverview` (`src/scratchers.js`
lines 72–79): label from `label || prize || ''`, ticket flag from the label
or the explicit field, value from the price (ticket) or `parseCurrency`,
odds passed through when numeric else parsed, `remaining || 0`,
`total || initial || remaining`. -/
def resolveOTier (price : JSNum) (t : OTier) : RTier :=
  let label := orStr t.label (orStr t.prize "")
  let isTkt := isTicketTier (.vstr label) || t.isTicketF
  let rawValue := if isTkt then price else parseCurrency t.value
  let odds :=
    match t.odds with
    | .vnum q => JSNum.num q
    | v => parseOdds v
  let remaining := orQ t.remaining 0
  let total := orQ t.total (orQ t.initial remaining)
  { label := label
    rawValue := rawValue
    odds := odds
    remaining := remaining
    total := total
    isTicket := isTkt }

/-- The `valid` filter of `computeOverview` (`src/scratchers.js` line 83):
`t.total > 0 && !isNaN(t.odds) && t.odds > 0`. -/
def validTiers : List RTier → List RTier
  | [] => []
  | t :: ts =>
    if 0 < t.total ∧ t.odds.isNaN = false ∧ JSNum.Lt (.num 0) t.odds then
      t :: validTiers ts
    else validTiers ts

/-- Running sum of a list of JavaScript numbers
(`reduce((a, b) => a + b, 0)`). -/
def jsumN (l : List JSNum) : JSNum :=
  l.foldl JSNum.add (.num 0)

/-- Running sum of a list of rationals (`reduce((s, t) => s + ..., 0)`). -/
def qsumQ (l : List ℚ) : ℚ :=
  l.foldl (· + ·) 0

/-- The tier array of a multi-game record, empty when absent. -/
def OGame.tiersList (g : OGame) : List OTier := g.tiers.getD []

/-- The `resolved` array of `computeOverview`. -/
def oResolved (g : OGame) : List RTier :=
  g.tiersList.map (resolveOTier g.price)

/-- The `valid` array of `computeOverview`. -/
def oValid (g : OGame) : List RTier :=
  validTiers (oResolved g)

/-- `M0` (`src/scratchers.js` lines 88–89): the mean of
`Q_i = odds_i * total_i` over the valid tiers. -/
def oM0 (g : OGame) : JSNum :=
  let qs := (oValid g).map (fun t => t.odds.mul (.num t.total))
  (jsumN qs).div (.num qs.length)

/-- `Tsum` (`src/scratchers.js` line 91). -/
def oTsum (g : OGame) : ℚ := qsumQ ((oValid g).map (·.total))

/-- `Rsum` (`src/scratchers.js` line 92). -/
def oRsum (g : OGame) : ℚ := qsumQ ((oValid g).map (·.remaining))

/-- `Mhat = M0 * (Rsum / Tsum)` (`src/scratchers.js` line 96). -/
def oMhat (g : OGame) : JSNum :=
  (oM0 g).mul (.num (oRsum g / oTsum g))

/-- `calcOddsVal = Mhat / Rsum` (`src/scratchers.js` line 97). -/
def oCalcOdds (g : OGame) : JSNum :=
  (oMhat g).div (.num (oRsum g))

/-- Claimed (launch-state) gross EV (`src/scratchers.js` lines 102–107):
sum of `adjustValue(rawValue) * total` over the valid tiers, divided by
`M0`. -/
def oClaimedGross (g : OGame) (o : EVOptions) : JSNum :=
  (jsumN ((oValid g).map
    (fun t => (adjustValue t.rawValue t.isTicket o).mul (.num t.total)))).div (oM0 g)

/-- Claimed net EV (`src/scratchers.js` line 108). -/
def oClaimedNet (g : OGame) (o : EVOptions) : JSNum :=
  (oClaimedGross g o).sub g.price

/-- Calculated (current-state) gross EV (`src/scratchers.js` lines
111–116): sum of `adjustValue(rawValue) * remaining` over the valid tiers,
divided by `Mhat`. -/
def oCalcGross (g : OGame) (o : EVOptions) : JSNum :=
  (jsumN ((oValid g).map
    (fun t => (adjustValue t.rawValue t.isTicket o).mul (.num t.remaining)))).div (oMhat g)

/-- Calculated net EV (`src/scratchers.js` line 117). -/
def oCalcNet (g : OGame) (o : EVOptions) : JSNum :=
  (oCalcGross g o).sub g.price

/-- The drift metric (`src/scratchers.js` lines 120–122):
`claimedNet !== 0 ? ((calcNet - claimedNet) / Math.abs(claimedNet)) * 100 : 0`. -/
def oDelta (g : OGame) (o : EVOptions) : JSNum :=
  if ¬ JSNum.Seq (oClaimedNet g o) (.num 0) then
    (((oCalcNet g o).sub (oClaimedNet g o)).div (oClaimedNet g o).abs).mul (.num 100)
  else .num 0

/-- The record built at `src/scratchers.js` lines 124–134. -/
def oResultOf (g : OGame) (o : EVOptions) : OResult :=
  { name := g.name
    number := orStr g.number ""
    price := g.price
    claimedOddsText := orStr g.claimedOdds "—"
    claimedOddsVal :=
      parseOdds (match g.claimedOdds with | some s => .vstr s | none => .vundef)
    calcOddsVal := oCalcOdds g
    claimedEV := oClaimedNet g o
    calcEV := oCalcNet g o
    deltaPercent := oDelta g o }

/-- `computeOverview` (`src/scratchers.js` lines 63–135), with its three
`return null` guards in source order: missing/zero price or missing/empty
tier array; no valid tier; zero `Tsum`, zero `Rsum` or `M0 === 0`. -/
def computeOverview (g : OGame) (o : EVOptions) : Option OResult :=
  if ¬ JSNum.Truthy g.price ∨ g.tiers = none ∨ g.tiers = some [] then none
  else if oValid g = [] then none
  else if oTsum g = 0 ∨ oRsum g = 0 ∨ JSNum.Seq (oM0 g) (.num 0) then none
  else some (oResultOf g o)

/-- The batch result list of `renderTable` (`src/scratchers.js` lines
159–161), before the display sort:
`gamesData.map(g => computeOverview(g, options)).filter(Boolean)`. -/
def batchResults (games : List OGame) (o : EVOptions) : List OResult :=
  (games.map (fun g => computeOverview g o)).filterMap id

/-!
Specification-side definitions (used to state the claims against the code
definitions above) and the concrete inputs used by witnesses and
counterexamples.
-/

/-- The adjustment pipeline as §4.3 of the specification words it: monetary
(non-ticket) tiers get, in fixed order, the threshold zeroing and then the
tax discount; ticket tiers bypass both adjustments. -/
def specAdjust (o : EVOptions) (tk : Bool) (v : JSNum) : JSNum :=
  if tk = true then v
  else
    let v1 :=
      if o.ignoreUnder500 = true ∧ JSNum.Lt (.num 0) v ∧ JSNum.Lt v (.num 500) then
        JSNum.num 0
      else v
    if o.applyTax = true ∧ JSNum.Lt (.num 0) v1 then
      v1.mul (.num (1 - o.taxRate / 100))
    else v1

/-- A positive (finite) pool estimate; no infinity is representable in
`JSNum`, so positivity is the whole condition. -/
def PositiveM : JSNum → Prop
  | .nan => False
  | .num q => 0 < q

instance : DecidablePred PositiveM
  | .nan => isFalse fun h => h
  | .num q => inferInstanceAs (Decidable (0 < q))

/-- The precondition of `computeEV`: a truthy ticket price and at least one
tier (the negation of the guard at `src/script.js` line 261). -/
def EVPre (g : Game) : Prop :=
  JSNum.Truthy g.ticketPrice ∧ g.tiers ≠ []

instance : DecidablePred EVPre := fun _ =>
  inferInstanceAs (Decidable (_ ∧ _))

/-- Some single-game pool-estimation strategy yields a positive finite `M`:
either the ticket-tier anchor produces a positive estimate, or at least one
tier feeds the median fallback (whose estimates are all positive). -/
def StrategySucceeds (g : Game) : Prop :=
  (∃ m, anchorM g.tiers = some m ∧ PositiveM m) ∨ tierEstimates g.tiers ≠ []

/-- The disjunction of the three `return null` guards of `computeOverview`,
in source order. -/
def OSkip (g : OGame) : Prop :=
  (¬ JSNum.Truthy g.price ∨ g.tiers = none ∨ g.tiers = some []) ∨
    oValid g = [] ∨ (oTsum g = 0 ∨ oRsum g = 0 ∨ JSNum.Seq (oM0 g) (.num 0))

instance : DecidablePred OSkip := fun _ =>
  inferInstanceAs (Decidable (_ ∨ _ ∨ _))

/-- Default options: both toggles off, the default 24 percent tax rate. -/
def o0 : EVOptions := { ignoreUnder500 := false, applyTax := false, taxRate := 24 }

/-- A ticket tier whose odds are numeric but zero: anchor-eligible for the
`find` predicate, yet its anchor estimate is `0`. -/
def c1Tkt : Tier :=
  { prize := "Ticket", value := .nan, isTicket := true, odds := .num 0,
    remaining := .num 1, total := .num 1 }

/-- A plain cash tier feeding the median fallback with `2 * 3 = 6`. -/
def c1Cash : Tier :=
  { prize := "$100", value := .num 100, isTicket := false, odds := .num 3,
    remaining := .num 2, total := .num 2 }

/-- Counterexample game for C1: the ticket tier is anchor-eligible (total
and remaining positive, numeric odds) but its odds are `0`. -/
def c1Game : Game := { ticketPrice := .num 1, tiers := [c1Tkt, c1Cash] }

/-- A ticket tier with `remaining == 0`: skipped by the anchor `find`. -/
def c5Tkt : Tier :=
  { prize := "Ticket", value := .nan, isTicket := true, odds := .num 5,
    remaining := .num 0, total := .num 10 }

/-- Counterexample game for C5: its ticket tier has `remaining == 0`, yet
the median fallback still produces an EV. -/
def c5Game : Game := { ticketPrice := .num 1, tiers := [c5Tkt, c1Cash] }

/-- Witness game for C1: one anchor-usable ticket tier with positive odds;
`M = (8 * 3) * (4 / 8) = 12`. -/
def w1Tkt : Tier :=
  { prize := "Ticket", value := .nan, isTicket := true, odds := .num 3,
    remaining := .num 4, total := .num 8 }

/-- Witness game for C1 (and C9). -/
def w1Game : Game := { ticketPrice := .num 2, tiers := [w1Tkt] }

/-- Witness tier for C2: a $600 cash prize, odds `1 in 2`, one remaining. -/
def w2Tier : Tier :=
  { prize := "$600", value := .num 600, isTicket := false, odds := .num 2,
    remaining := .num 1, total := .num 1 }

/-- Witness game for C2 (and C8): median fallback estimate `[2]`,
`M = 2`, gross `300`, net `298`. -/
def w2Game : Game := { ticketPrice := .num 2, tiers := [w2Tier] }

/-- The result record `computeEV` produces for `w2Game` under `o0`. -/
def w2Res : EVResult :=
  { ticketPrice := .num 2, M := .num 2, method := "Median fallback",
    evGross := .num 300, evNet := .num 298,
    tiers := [{ prize := "$600", value := .num 600, remaining := .num 1,
                total := .num 1, parsedN := .num 2, tierTicketEst := .num 2,
                probability := .num (1 / 2), adjustedValue := .num 600,
                evContribution := .num 300, isTicket := false }] }

/-- Witness game for C4: no ticket tier, three cash tiers with per-tier
estimates `[10, 3, 28]`, median `10`. -/
def w4Game : Game :=
  { ticketPrice := .num 1,
    tiers :=
      [{ prize := "$10", value := .num 10, isTicket := false, odds := .num 5,
         remaining := .num 2, total := .num 2 },
       { prize := "$20", value := .num 20, isTicket := false, odds := .num 3,
         remaining := .num 1, total := .num 1 },
       { prize := "$30", value := .num 30, isTicket := false, odds := .num 4,
         remaining := .num 7, total := .num 7 }] }

/-- Witness game for C5: every tier has `remaining == 0`, so neither
strategy applies. -/
def w5Game : Game :=
  { ticketPrice := .num 1,
    tiers :=
      [{ prize := "Ticket", value := .nan, isTicket := true, odds := .num 2,
         remaining := .num 0, total := .num 5 },
       { prize := "$50", value := .num 50, isTicket := false, odds := .num 4,
         remaining := .num 0, total := .num 3 }] }

/-- Witness tier for C10: a non-ticket tier whose value is `NaN`
(as produced by `parseCurrency` on an unparseable prize label). -/
def w10Tier : Tier :=
  { prize := "Gift Basket", value := .nan, isTicket := false,
    odds := .num 2, remaining := .num 3, total := .num 3 }

/-- Witness game for C10: the `NaN`-valued tier's odds and counts still let
the median fallback succeed (`M = 6`). -/
def w10Game : Game := { ticketPrice := .num 1, tiers := [w10Tier] }

/-- A minimal valid multi-game tier: value `100`, odds `2`, one ticket
remaining of one printed. -/
def oTierA : OTier :=
  { label := none, prize := none, isTicketF := false, value := .vnum 100,
    odds := .vnum 2, remaining := some 1, total := some 1, initial := none }

/-- Witness game for C3: price `10`; claimed and calculated net EV are both
`40`. -/
def g3 : OGame :=
  { name := none, number := none, price := .num 10, claimedOdds := none,
    tiers := some [oTierA] }

/-- The row `computeOverview` produces for `g3` under `o0`. -/
def r3 : OResult :=
  { name := none, number := "", price := .num 10, claimedOddsText := "—",
    claimedOddsVal := .nan, calcOddsVal := .num 2, claimedEV := .num 40,
    calcEV := .num 40, deltaPercent := .num 0 }

/-- Witness game for C6: price `50` makes the claimed net EV exactly `0`. -/
def g6 : OGame :=
  { name := none, number := none, price := .num 50, claimedOdds := none,
    tiers := some [oTierA] }

/-- The row `computeOverview` produces for `g6` under `o0`: a zero claimed
net EV and a delta of exactly `0`. -/
def r6 : OResult :=
  { name := none, number := "", price := .num 50, claimedOddsText := "—",
    claimedOddsVal := .nan, calcOddsVal := .num 2, claimedEV := .num 0,
    calcEV := .num 0, deltaPercent := .num 0 }

/-- A multi-game record with an empty tier array (the malformed game of the
batch scenario). -/
def gEmptyTiers : OGame :=
  { name := some "Bad", number := none, price := .num 5, claimedOdds := none,
    tiers := some [] }

/-- Counterexample game for C7: a positive-odds valid tier, nonzero sums and
nonzero `M0`, but a zero price. -/
def gPrice0 : OGame :=
  { name := some "Zero", number := none, price := .num 0, claimedOdds := none,
    tiers := some [oTierA] }

/-- Four small distinct valid games for the batch scenario. -/
def gBatch1 : OGame :=
  { name := some "A", number := none, price := .num 1, claimedOdds := none,
    tiers := some [oTierA] }

/-- A second small valid multi-game tier. -/
def oTierB : OTier :=
  { label := none, prize := none, isTicketF := false, value := .vnum 40,
    odds := .vnum 4, remaining := some 2, total := some 3, initial := none }

/-- A third small valid multi-game tier. -/
def oTierC : OTier :=
  { label := none, prize := none, isTicketF := false, value := .vnum 60,
    odds := .vnum 5, remaining := some 4, total := some 5, initial := none }

/-- A fourth small valid multi-game tier. -/
def oTierD : OTier :=
  { label := none, prize := none, isTicketF := false, value := .vnum 80,
    odds := .vnum 6, remaining := some 5, total := some 6, initial := none }

/-- Second valid batch game. -/
def gBatch3 : OGame :=
  { name := some "B", number := none, price := .num 2, claimedOdds := none,
    tiers := some [oTierB] }

/-- Third valid batch game. -/
def gBatch4 : OGame :=
  { name := some "C", number := none, price := .num 3, claimedOdds := none,
    tiers := some [oTierC] }

/-- Fourth valid batch game. -/
def gBatch5 : OGame :=
  { name := some "D", number := none, price := .num 4, claimedOdds := none,
    tiers := some [oTierD] }

/-- The batch of five games of the C7 scenario: one has `tiers: []`. -/
def demoBatch : List OGame := [gBatch1, gEmptyTiers, gBatch3, gBatch4, gBatch5]

/-- The same batch with the malformed game removed. -/
def demoValid : List OGame := [gBatch1, gBatch3, gBatch4, gBatch5]

/-!
Helper lemmas.
-/

set_option maxRecDepth 4000

theorem JSNum.add_nan_right (x : JSNum) : x.add .nan = .nan := by
  cases x <;> rfl

theorem JSNum.add_nan_left (x : JSNum) : JSNum.add .nan x = .nan := by
  cases x <;> rfl

theorem JSNum.mul_nan_right (x : JSNum) : x.mul .nan = .nan := by
  cases x <;> rfl

theorem JSNum.sub_nan_left (x : JSNum) : JSNum.sub .nan x = .nan := by
  cases x <;> rfl

theorem JSNum.not_lt_nan_right (x : JSNum) : ¬ JSNum.Lt x .nan := by
  cases x <;> exact fun h => h

/-- The guard `!M || M <= 0` of `computeEV` fails exactly for a positive
(finite) numeric `M`. -/
theorem usable_iff_positive (m : JSNum) :
    ¬ (¬ JSNum.Truthy m ∨ JSNum.Le m (.num 0)) ↔ PositiveM m := by
  cases m with
  | nan => simp [JSNum.Truthy, JSNum.Le, PositiveM]
  | num q =>
    simp only [JSNum.Truthy, JSNum.Le, PositiveM, not_or, not_not, not_le]
    exact ⟨fun h => h.2, fun h => ⟨h.ne', h⟩⟩

theorem resolveTier_isTicket (p : JSNum) (t : Tier) :
    (resolveTier p t).isTicket = t.isTicket := by
  unfold resolveTier; split <;> rfl

theorem resolveTier_odds (p : JSNum) (t : Tier) :
    (resolveTier p t).odds = t.odds := by
  unfold resolveTier; split <;> rfl

theorem resolveTier_remaining (p : JSNum) (t : Tier) :
    (resolveTier p t).remaining = t.remaining := by
  unfold resolveTier; split <;> rfl

theorem resolveTier_total (p : JSNum) (t : Tier) :
    (resolveTier p t).total = t.total := by
  unfold resolveTier; split <;> rfl

theorem resolveTier_value_of_ticket (p : JSNum) (t : Tier)
    (h : t.isTicket = true) : (resolveTier p t).value = p := by
  simp [resolveTier, h]

theorem resolveTier_of_not_ticket (p : JSNum) (t : Tier)
    (h : t.isTicket = false) : resolveTier p t = t := by
  simp [resolveTier, h]

theorem resolveTier_idem (p : JSNum) (t : Tier) :
    resolveTier p (resolveTier p t) = resolveTier p t := by
  by_cases h : t.isTicket <;> simp [resolveTier, h]

theorem resolveTicketValues_idem (p : JSNum) (ts : List Tier) :
    resolveTicketValues p (resolveTicketValues p ts) = resolveTicketValues p ts := by
  unfold resolveTicketValues
  rw [List.map_map]
  exact List.map_congr_left fun t _ => resolveTier_idem p t

theorem resolveTicketValues_eq_nil (p : JSNum) (ts : List Tier) :
    resolveTicketValues p ts = [] ↔ ts = [] := by
  simp [resolveTicketValues]

theorem anchorCond_resolveTier (p : JSNum) (t : Tier) :
    AnchorCond (resolveTier p t) ↔ AnchorCond t := by
  unfold AnchorCond
  rw [resolveTier_isTicket, resolveTier_total, resolveTier_remaining, resolveTier_odds]

theorem findAnchor_resolve (p : JSNum) (ts : List Tier) :
    findAnchor (resolveTicketValues p ts) = (findAnchor ts).map (resolveTier p) := by
  induction ts with
  | nil => rfl
  | cons t ts ih =>
    show findAnchor (resolveTier p t :: resolveTicketValues p ts) = _
    by_cases h : AnchorCond t
    · rw [findAnchor, if_pos ((anchorCond_resolveTier p t).mpr h),
        findAnchor, if_pos h]
      rfl
    · rw [findAnchor, if_neg (fun hc => h ((anchorCond_resolveTier p t).mp hc)),
        findAnchor, if_neg h, ih]

theorem findAnchor_some {ts : List Tier} {t : Tier}
    (h : findAnchor ts = some t) : AnchorCond t := by
  induction ts with
  | nil => exact absurd h (by simp [findAnchor])
  | cons u ts ih =>
    rw [findAnchor] at h
    split at h
    · cases h; assumption
    · exact ih h

theorem findAnchor_eq_none {ts : List Tier}
    (h : ∀ t ∈ ts, ¬ AnchorCond t) : findAnchor ts = none := by
  induction ts with
  | nil => rfl
  | cons u ts ih =>
    rw [findAnchor, if_neg (h u (by simp))]
    exact ih fun t ht => h t (by simp [ht])

theorem findAnchor_ne_nil {ts : List Tier} {t : Tier}
    (h : findAnchor ts = some t) : ts ≠ [] := by
  intro hnil; subst hnil; exact absurd h (by simp [findAnchor])

theorem anchorM_resolve (p : JSNum) (ts : List Tier) :
    anchorM (resolveTicketValues p ts) = anchorM ts := by
  unfold anchorM
  rw [findAnchor_resolve]
  cases findAnchor ts with
  | none => rfl
  | some t =>
    simp [resolveTier_total, resolveTier_odds, resolveTier_remaining]

theorem tierEstimate1_resolve (p : JSNum) (t : Tier) :
    tierEstimate1 (resolveTier p t) = tierEstimate1 t := by
  unfold tierEstimate1
  rw [resolveTier_remaining, resolveTier_odds]

theorem tierEstimates_resolve (p : JSNum) (ts : List Tier) :
    tierEstimates (resolveTicketValues p ts) = tierEstimates ts := by
  unfold tierEstimates resolveTicketValues
  rw [List.filterMap_map]
  congr 1
  funext t
  exact tierEstimate1_resolve p t

theorem tierEstimates_pos {ts : List Tier} {x : ℚ}
    (h : x ∈ tierEstimates ts) : 0 < x := by
  unfold tierEstimates at h
  rw [List.mem_filterMap] at h
  obtain ⟨t, -, ht⟩ := h
  unfold tierEstimate1 at ht
  rcases hr : t.remaining with _ | r <;> rw [hr] at ht
  · rcases ho : t.odds with _ | o <;> rw [ho] at ht <;> simp at ht
  · rcases ho : t.odds with _ | o <;> rw [ho] at ht
    · simp at ht
    · simp at ht
      rw [← ht.2]
      exact mul_pos ht.1.1 ht.1.2

theorem tierEstimates_nil_of_all_zero {ts : List Tier}
    (h : ∀ t ∈ ts, t.remaining = .num 0) : tierEstimates ts = [] := by
  unfold tierEstimates
  rw [List.filterMap_eq_nil_iff]
  intro t ht
  unfold tierEstimate1
  rw [h t ht]
  rcases t.odds with _ | o <;> simp

theorem medianQ_pos {l : List ℚ} (hne : l ≠ [])
    (hpos : ∀ x ∈ l, 0 < x) : 0 < medianQ l := by
  unfold medianQ
  have hlen : (sortedAsc l).length = l.length :=
    List.length_insertionSort (· ≤ ·) l
  have hmem : ∀ x ∈ sortedAsc l, 0 < x := fun x hx =>
    hpos x ((List.perm_insertionSort (· ≤ ·) l).mem_iff.mp hx)
  have h0 : 0 < (sortedAsc l).length := by
    rw [hlen]
    exact List.length_pos.mpr hne
  set s := sortedAsc l with hs
  split
  · have h2 : 2 ≤ s.length := by omega
    have hm2 : s.length / 2 < s.length := Nat.div_lt_self h0 (by norm_num)
    have hm1 : s.length / 2 - 1 < s.length := by omega
    have p1 : 0 < s.getD (s.length / 2 - 1) 0 := by
      rw [List.getD_eq_getElem s 0 hm1]
      exact hmem _ (List.getElem_mem hm1)
    have p2 : 0 < s.getD (s.length / 2) 0 := by
      rw [List.getD_eq_getElem s 0 hm2]
      exact hmem _ (List.getElem_mem hm2)
    positivity
  · have hm2 : s.length / 2 < s.length := Nat.div_lt_self h0 (by norm_num)
    rw [List.getD_eq_getElem s 0 hm2]
    exact hmem _ (List.getElem_mem hm2)

theorem EVPre_iff (g : Game) :
    ¬ (¬ JSNum.Truthy g.ticketPrice ∨ g.tiers = []) ↔ EVPre g := by
  unfold EVPre
  rw [not_or, not_not]

theorem estimatePool_anchor_pos {ts : List Tier} {m : JSNum}
    (hA : anchorM ts = some m) (hm : PositiveM m) :
    estimatePool ts = (some m, "Ticket-tier anchor") := by
  unfold estimatePool
  rw [hA]
  exact if_neg ((usable_iff_positive m).mpr hm)

theorem estimatePool_fallback_none {ts : List Tier} {e : ℚ} {es : List ℚ}
    (hA : anchorM ts = none) (hE : tierEstimates ts = e :: es) :
    estimatePool ts = (some (.num (medianQ (e :: es))), "Median fallback") := by
  unfold estimatePool
  rw [hA, hE]

theorem estimatePool_fallback_bad {ts : List Tier} {m : JSNum} {e : ℚ} {es : List ℚ}
    (hA : anchorM ts = some m) (hm : ¬ PositiveM m)
    (hE : tierEstimates ts = e :: es) :
    estimatePool ts = (some (.num (medianQ (e :: es))), "Median fallback") := by
  simp only [estimatePool, hA]
  rw [if_pos (Decidable.of_not_not fun hc => hm ((usable_iff_positive m).mp hc)), hE]

theorem estimatePool_fail_none {ts : List Tier}
    (hA : anchorM ts = none) (hE : tierEstimates ts = []) :
    estimatePool ts = (none, "") := by
  unfold estimatePool
  rw [hA, hE]

theorem estimatePool_fail_bad {ts : List Tier} {m : JSNum}
    (hA : anchorM ts = some m) (hm : ¬ PositiveM m) (hE : tierEstimates ts = []) :
    estimatePool ts = (some m, "Ticket-tier anchor") := by
  simp only [estimatePool, hA]
  rw [if_pos (Decidable.of_not_not fun hc => hm ((usable_iff_positive m).mp hc)), hE]

theorem computeEV_pre_fail {g : Game} {o : EVOptions}
    (h : ¬ JSNum.Truthy g.ticketPrice ∨ g.tiers = []) :
    computeEV g o = (g, .err missingMsg) := by
  unfold computeEV
  rw [if_pos h]

theorem computeEV_ok_eq {g : Game} {o : EVOptions} {M : JSNum} {method : String}
    (hpre : EVPre g)
    (hP : estimatePool (resolveTicketValues g.ticketPrice g.tiers) = (some M, method))
    (hM : PositiveM M) :
    computeEV g o =
      ({ g with tiers := resolveTicketValues g.ticketPrice g.tiers },
        .ok (mkEVResult g.ticketPrice M method
          (resolveTicketValues g.ticketPrice g.tiers) o)) := by
  simp only [computeEV, if_neg ((EVPre_iff g).mpr hpre), evOutcome, hP]
  rw [if_neg ((usable_iff_positive M).mpr hM)]

theorem computeEV_err_bad {g : Game} {o : EVOptions} {M : JSNum} {method : String}
    (hpre : EVPre g)
    (hP : estimatePool (resolveTicketValues g.ticketPrice g.tiers) = (some M, method))
    (hM : ¬ PositiveM M) :
    computeEV g o =
      ({ g with tiers := resolveTicketValues g.ticketPrice g.tiers },
        .err estimateMsg) := by
  simp only [computeEV, if_neg ((EVPre_iff g).mpr hpre), evOutcome, hP]
  rw [if_pos (Decidable.of_not_not fun hc => hM ((usable_iff_positive M).mp hc))]

theorem computeEV_err_none {g : Game} {o : EVOptions}
    (hpre : EVPre g)
    (hP : (estimatePool (resolveTicketValues g.ticketPrice g.tiers)).1 = none) :
    computeEV g o =
      ({ g with tiers := resolveTicketValues g.ticketPrice g.tiers },
        .err estimateMsg) := by
  rcases hE : estimatePool (resolveTicketValues g.ticketPrice g.tiers) with ⟨m, method⟩
  rw [hE] at hP
  simp only at hP
  subst hP
  simp only [computeEV, if_neg ((EVPre_iff g).mpr hpre), evOutcome, hE]

theorem computeEV_ok_inv {g : Game} {o : EVOptions} {r : EVResult}
    (h : (computeEV g o).2 = .ok r) :
    EVPre g ∧ ∃ M method,
      estimatePool (resolveTicketValues g.ticketPrice g.tiers) = (some M, method) ∧
      PositiveM M ∧
      r = mkEVResult g.ticketPrice M method
        (resolveTicketValues g.ticketPrice g.tiers) o := by
  by_cases hpre : EVPre g
  · rcases hE : estimatePool (resolveTicketValues g.ticketPrice g.tiers) with ⟨m?, method⟩
    cases m? with
    | none =>
      rw [computeEV_err_none hpre (by rw [hE])] at h
      exact absurd h (by simp)
    | some M =>
      by_cases hM : PositiveM M
      · refine ⟨hpre, M, method, by first | exact hE | rfl, hM, ?_⟩
        rw [computeEV_ok_eq hpre hE hM] at h
        simpa using h.symm
      · rw [computeEV_err_bad hpre hE hM] at h
        exact absurd h (by simp)
  · rw [computeEV_pre_fail (Decidable.of_not_not fun hc => hpre ((EVPre_iff g).mp hc))] at h
    exact absurd h (by simp)

theorem computeEV_ok_of {g : Game} (o : EVOptions)
    (hpre : EVPre g) (hstrat : StrategySucceeds g) :
    ∃ M method,
      estimatePool (resolveTicketValues g.ticketPrice g.tiers) = (some M, method) ∧
      PositiveM M ∧
      computeEV g o =
        ({ g with tiers := resolveTicketValues g.ticketPrice g.tiers },
          .ok (mkEVResult g.ticketPrice M method
            (resolveTicketValues g.ticketPrice g.tiers) o)) := by
  rcases hA : anchorM g.tiers with _ | m
  · -- no anchor tier: the strategy hypothesis forces a nonempty estimate list
    have hne : tierEstimates g.tiers ≠ [] := by
      rcases hstrat with ⟨m, hm, -⟩ | hne
      · rw [hA] at hm; exact absurd hm (by simp)
      · exact hne
    rcases hE : tierEstimates g.tiers with _ | ⟨e, es⟩
    · exact absurd hE hne
    have hA2 : anchorM (resolveTicketValues g.ticketPrice g.tiers) = none := by
      rw [anchorM_resolve, hA]
    have hE2 : tierEstimates (resolveTicketValues g.ticketPrice g.tiers) = e :: es := by
      rw [tierEstimates_resolve, hE]
    have hP := estimatePool_fallback_none hA2 hE2
    have hMpos : PositiveM (.num (medianQ (e :: es))) := by
      show 0 < medianQ (e :: es)
      refine medianQ_pos (by simp) fun x hx => ?_
      have hx2 : x ∈ tierEstimates g.tiers := by rw [hE]; exact hx
      exact tierEstimates_pos hx2
    exact ⟨_, _, hP, hMpos, computeEV_ok_eq hpre hP hMpos⟩
  · by_cases hm : PositiveM m
    · have hA2 : anchorM (resolveTicketValues g.ticketPrice g.tiers) = some m := by
        rw [anchorM_resolve, hA]
      have hP := estimatePool_anchor_pos hA2 hm
      exact ⟨m, _, hP, hm, computeEV_ok_eq hpre hP hm⟩
    · have hne : tierEstimates g.tiers ≠ [] := by
        rcases hstrat with ⟨m', hm', hp'⟩ | hne
        · rw [hA] at hm'
          cases hm'
          exact absurd hp' hm
        · exact hne
      rcases hE : tierEstimates g.tiers with _ | ⟨e, es⟩
      · exact absurd hE hne
      have hA2 : anchorM (resolveTicketValues g.ticketPrice g.tiers) = some m := by
        rw [anchorM_resolve, hA]
      have hE2 : tierEstimates (resolveTicketValues g.ticketPrice g.tiers) = e :: es := by
        rw [tierEstimates_resolve, hE]
      have hP := estimatePool_fallback_bad hA2 hm hE2
      have hMpos : PositiveM (.num (medianQ (e :: es))) := by
        show 0 < medianQ (e :: es)
        refine medianQ_pos (by simp) fun x hx => ?_
        have hx2 : x ∈ tierEstimates g.tiers := by rw [hE]; exact hx
        exact tierEstimates_pos hx2
      exact ⟨_, _, hP, hMpos, computeEV_ok_eq hpre hP hMpos⟩

theorem foldl_add_nan (l : List JSNum) : l.foldl JSNum.add .nan = .nan := by
  induction l with
  | nil => rfl
  | cons x l ih => rw [List.foldl_cons, JSNum.add_nan_left, ih]

theorem foldl_add_of_mem_nan {l : List JSNum} (h : .nan ∈ l) :
    ∀ a, l.foldl JSNum.add a = .nan := by
  induction l with
  | nil => cases h
  | cons x l ih =>
    intro a
    rcases List.mem_cons.mp h with h1 | h2
    · rw [List.foldl_cons, ← h1, JSNum.add_nan_right, foldl_add_nan]
    · rw [List.foldl_cons]
      exact ih h2 _

instance : Std.Commutative JSNum.add :=
  ⟨by intro a b; cases a <;> cases b <;> simp [JSNum.add, add_comm]⟩

instance : Std.Associative JSNum.add :=
  ⟨by intro a b c; cases a <;> cases b <;> cases c <;> simp [JSNum.add, add_assoc]⟩

/-- The running JavaScript sum agrees with the right fold (the spec's plain
"sum of contributions"). -/
theorem jsumN_eq_foldr (l : List JSNum) :
    jsumN l = l.foldr JSNum.add (.num 0) := by
  unfold jsumN
  exact @List.foldl_eq_foldr _ JSNum.add _ _ (.num 0) l

/-- The running rational sum agrees with `List.sum`. -/
theorem qsumQ_eq_sum (l : List ℚ) : qsumQ l = l.sum := by
  unfold qsumQ
  exact List.sum_eq_foldl.symm

theorem adjustValue_eq_spec (o : EVOptions) (tk : Bool) (v : JSNum) :
    adjustValue v tk o = specAdjust o tk v := by
  cases tk <;> simp [adjustValue, specAdjust]

theorem tierResult_adjusted (o : EVOptions) (M : JSNum) (t : Tier) :
    (tierResult o M t).adjustedValue = specAdjust o t.isTicket t.value := by
  cases htk : t.isTicket <;> simp [tierResult, specAdjust, htk]

theorem tierResult_contribution (o : EVOptions) (M : JSNum) (t : Tier) :
    (tierResult o M t).evContribution =
      (t.remaining.div M).mul ((tierResult o M t).adjustedValue) := rfl

theorem computeOverview_none_iff (g : OGame) (o : EVOptions) :
    computeOverview g o = none ↔ OSkip g := by
  unfold computeOverview OSkip
  split_ifs with h1 h2 h3 <;> simp_all

theorem computeOverview_some_eq {g : OGame} {o : EVOptions} {r : OResult}
    (h : computeOverview g o = some r) : r = oResultOf g o := by
  unfold computeOverview at h
  split_ifs at h
  exact (Option.some.inj h).symm

theorem computeOverview_some_of {g : OGame} {o : EVOptions}
    (h : ¬ OSkip g) : computeOverview g o = some (oResultOf g o) := by
  have hA : ¬ (¬ JSNum.Truthy g.price ∨ g.tiers = none ∨ g.tiers = some []) :=
    fun hc => h (Or.inl hc)
  have hB : oValid g ≠ [] := fun hc => h (Or.inr (Or.inl hc))
  have hC : ¬ (oTsum g = 0 ∨ oRsum g = 0 ∨ JSNum.Seq (oM0 g) (.num 0)) :=
    fun hc => h (Or.inr (Or.inr hc))
  unfold computeOverview
  rw [if_neg hA, if_neg hB, if_neg hC]

/-!
Claim theorems.
-/

/-- C1 (amended): for every game with a truthy ticket price whose first
anchor-eligible ticket tier (ticket flag set, `total > 0`, `remaining > 0`,
numeric odds) also has positive odds, `computeEV` selects the ticket-tier
anchor strategy and returns `M = (total * odds) * (remaining / total)`
computed from that tier; in particular, when `remaining == total`, `M`
equals `total * odds` exactly. -/
theorem claim_C1 (g : Game) (o : EVOptions) (t : Tier) (T R q : ℚ)
    (hpre : JSNum.Truthy g.ticketPrice)
    (hfind : findAnchor g.tiers = some t)
    (hT : t.total = .num T) (hR : t.remaining = .num R)
    (hq : t.odds = .num q) (hqpos : 0 < q) :
    EVOut.poolOf (computeEV g o).2 = some (.num ((T * q) * (R / T))) ∧
    EVOut.methodOf (computeEV g o).2 = some "Ticket-tier anchor" ∧
    (R = T → EVOut.poolOf (computeEV g o).2 = some (.num (T * q))) := by
  have hc := findAnchor_some hfind
  have hT0 : (0 : ℚ) < T := by
    have h2 := hc.2.1
    rw [hT] at h2
    exact h2
  have hR0 : (0 : ℚ) < R := by
    have h2 := hc.2.2.1
    rw [hR] at h2
    exact h2
  have hEVpre : EVPre g := ⟨hpre, findAnchor_ne_nil hfind⟩
  have hAnch : anchorM g.tiers = some (.num ((T * q) * (R / T))) := by
    simp only [anchorM, hfind]
    rw [hT, hq, hR]
    simp [JSNum.mul, JSNum.div, hT0.ne']
  have hpos : PositiveM (.num ((T * q) * (R / T))) := by
    show 0 < (T * q) * (R / T)
    exact mul_pos (mul_pos hT0 hqpos) (div_pos hR0 hT0)
  have hA2 : anchorM (resolveTicketValues g.ticketPrice g.tiers) =
      some (.num ((T * q) * (R / T))) := by
    rw [anchorM_resolve, hAnch]
  have hP := estimatePool_anchor_pos hA2 hpos
  rw [computeEV_ok_eq hEVpre hP hpos]
  refine ⟨by simp [EVOut.poolOf, mkEVResult], by simp [EVOut.methodOf, mkEVResult], ?_⟩
  intro hRT
  simp only [EVOut.poolOf, mkEVResult]
  rw [hRT, div_self hT0.ne', mul_one]

/-- C1 is false as frozen: `c1Game`'s ticket tier is anchor-eligible for the
`find` predicate of line 274 (`total > 0`, `remaining > 0`, numeric odds),
but its odds are `0`, so the anchor yields `M = 0`, the code falls through
to the median fallback, and the returned pool is `6`, not
`(1 * 0) * (1 / 1) = 0` from that ticket tier. -/
theorem claim_C1_cex :
    c1Tkt.isTicket = true ∧ c1Tkt.total = .num 1 ∧ c1Tkt.remaining = .num 1 ∧
    c1Tkt.odds.isNaN = false ∧ findAnchor c1Game.tiers = some c1Tkt ∧
    EVOut.methodOf (computeEV c1Game o0).2 = some "Median fallback" ∧
    EVOut.poolOf (computeEV c1Game o0).2 = some (.num 6) ∧
    EVOut.poolOf (computeEV c1Game o0).2 ≠ some (.num ((1 * 0) * (1 / 1))) := by
  with_unfolding_all decide

/-- C1 witness: `claim_C1` applied to the concrete game `w1Game`, whose
ticket tier has `total = 8`, `remaining = 4`, odds `3`. -/
theorem claim_C1_witness :
    EVOut.poolOf (computeEV w1Game o0).2 = some (.num ((8 * 3) * (4 / 8))) ∧
    EVOut.methodOf (computeEV w1Game o0).2 = some "Ticket-tier anchor" := by
  have h := claim_C1 w1Game o0 w1Tkt 8 4 3 (by with_unfolding_all decide)
    (by with_unfolding_all decide) rfl rfl rfl (by norm_num)
  exact ⟨h.1, h.2.1⟩

/-- C4: when no ticket-tier anchor is usable (none found, or the found one
yields a non-positive estimate) and at least one tier has `remaining > 0`
with positive numeric odds, `computeEV` returns the median of the per-tier
implied pool sizes `remaining * odds`, where the median of an even-length
sorted list is the mean of its two middle values. -/
theorem claim_C4 (g : Game) (o : EVOptions) (e : ℚ) (es : List ℚ)
    (hpre : JSNum.Truthy g.ticketPrice)
    (hanchor : ∀ m, anchorM g.tiers = some m → ¬ PositiveM m)
    (hest : tierEstimates g.tiers = e :: es) :
    EVOut.poolOf (computeEV g o).2 = some (.num (medianQ (e :: es))) ∧
    EVOut.methodOf (computeEV g o).2 = some "Median fallback" ∧
    medianQ (e :: es) =
      (if (sortedAsc (e :: es)).length % 2 = 0 then
        ((sortedAsc (e :: es)).getD ((sortedAsc (e :: es)).length / 2 - 1) 0 +
          (sortedAsc (e :: es)).getD ((sortedAsc (e :: es)).length / 2) 0) / 2
      else (sortedAsc (e :: es)).getD ((sortedAsc (e :: es)).length / 2) 0) := by
  have hne : g.tiers ≠ [] := by
    intro h0
    rw [h0] at hest
    simp [tierEstimates] at hest
  have hEVpre : EVPre g := ⟨hpre, hne⟩
  have hE2 : tierEstimates (resolveTicketValues g.ticketPrice g.tiers) = e :: es := by
    rw [tierEstimates_resolve, hest]
  have hMpos : PositiveM (.num (medianQ (e :: es))) := by
    show 0 < medianQ (e :: es)
    refine medianQ_pos (by simp) fun x hx => ?_
    have hx2 : x ∈ tierEstimates g.tiers := by rw [hest]; exact hx
    exact tierEstimates_pos hx2
  have hP : estimatePool (resolveTicketValues g.ticketPrice g.tiers) =
      (some (.num (medianQ (e :: es))), "Median fallback") := by
    rcases hA : anchorM g.tiers with _ | m
    · exact estimatePool_fallback_none (by rw [anchorM_resolve, hA]) hE2
    · exact estimatePool_fallback_bad (by rw [anchorM_resolve, hA]) (hanchor m hA) hE2
  rw [computeEV_ok_eq hEVpre hP hMpos]
  exact ⟨by simp [EVOut.poolOf, mkEVResult], by simp [EVOut.methodOf, mkEVResult], rfl⟩

/-- C4 witness: `claim_C4` applied to `w4Game`, whose per-tier estimates are
`[10, 3, 28]` with median `10`. -/
theorem claim_C4_witness :
    EVOut.poolOf (computeEV w4Game o0).2 = some (.num (medianQ [10, 3, 28])) ∧
    EVOut.methodOf (computeEV w4Game o0).2 = some "Median fallback" := by
  have hA : anchorM w4Game.tiers = none := by with_unfolding_all decide
  have h := claim_C4 w4Game o0 10 [3, 28] (by with_unfolding_all decide)
    (fun m hm => by rw [hA] at hm; cases hm) (by with_unfolding_all decide)
  exact ⟨h.1, h.2.1⟩

/-- C5 (amended): a ticket tier with `remaining == 0` fails the anchor
`find` predicate, so it is never used as the pool anchor (no `M = 0` is ever
produced from it); and when every tier of the game has `remaining == 0`,
neither the anchor nor the median fallback applies and `computeEV` returns
the estimation-failure error, so no EV is computed. -/
theorem claim_C5 (g : Game) (o : EVOptions)
    (hpre : JSNum.Truthy g.ticketPrice) (hne : g.tiers ≠ [])
    (hzero : ∀ t ∈ g.tiers, t.remaining = .num 0) :
    (∀ t : Tier, t.remaining = .num 0 → ¬ AnchorCond t) ∧
    (computeEV g o).2 = .err estimateMsg := by
  have hnotanchor : ∀ t : Tier, t.remaining = .num 0 → ¬ AnchorCond t := by
    intro t h0 hc
    have h2 := hc.2.2.1
    rw [h0] at h2
    exact absurd h2 (by norm_num [JSNum.Lt])
  refine ⟨hnotanchor, ?_⟩
  have hA : anchorM g.tiers = none := by
    unfold anchorM
    rw [findAnchor_eq_none fun t ht => hnotanchor t (hzero t ht)]
  have hE : tierEstimates g.tiers = [] := tierEstimates_nil_of_all_zero hzero
  rw [computeEV_err_none ⟨hpre, hne⟩
    (by rw [estimatePool_fail_none (by rw [anchorM_resolve, hA])
      (by rw [tierEstimates_resolve, hE])])]

/-- C5 is false as frozen: `c5Game`'s ticket tier has `remaining == 0`, yet
estimation does not fail downstream — the median fallback produces `M = 6`
(not `0`) and an EV result is returned. -/
theorem claim_C5_cex :
    c5Tkt.isTicket = true ∧ c5Tkt.remaining = .num 0 ∧ c5Tkt ∈ c5Game.tiers ∧
    EVOut.isOk (computeEV c5Game o0).2 = true ∧
    EVOut.poolOf (computeEV c5Game o0).2 = some (.num 6) ∧
    EVOut.poolOf (computeEV c5Game o0).2 ≠ some (.num 0) := by
  with_unfolding_all decide

/-- C5 witness: `claim_C5` applied to `w5Game`, whose tiers all have
`remaining == 0`. -/
theorem claim_C5_witness :
    (computeEV w5Game o0).2 = .err estimateMsg := by
  have h := claim_C5 w5Game o0 (by with_unfolding_all decide)
    (by with_unfolding_all decide) (by with_unfolding_all decide)
  exact h.2

/-- C2: in `computeEV` the adjustments run in fixed order (threshold zeroing
for `0 < value < 500`, then the tax discount on a still-positive value),
non-ticket tiers only; ticket tiers skip both adjustments and their adjusted
value is the ticket price resolved before any other computation; each tier's
contribution is `(remaining / M) * adjustedValue`; gross EV is the sum of
the contributions over all tiers and net EV is gross minus the ticket
price.  The multi-game `adjustValue` applies the same fixed order. -/
theorem claim_C2 (g : Game) (o : EVOptions) (r : EVResult)
    (h : (computeEV g o).2 = .ok r) :
    (∀ v tk, adjustValue v tk o = specAdjust o tk v) ∧
    r.ticketPrice = g.ticketPrice ∧
    r.tiers = (resolveTicketValues g.ticketPrice g.tiers).map (tierResult o r.M) ∧
    (∀ t : Tier, (tierResult o r.M t).adjustedValue = specAdjust o t.isTicket t.value) ∧
    (∀ t ∈ resolveTicketValues g.ticketPrice g.tiers,
      t.isTicket = true → t.value = g.ticketPrice) ∧
    (∀ t ∈ resolveTicketValues g.ticketPrice g.tiers,
      t.isTicket = true → (tierResult o r.M t).adjustedValue = g.ticketPrice) ∧
    (∀ t : Tier, (tierResult o r.M t).evContribution =
      (t.remaining.div r.M).mul ((tierResult o r.M t).adjustedValue)) ∧
    r.evGross = (r.tiers.map (·.evContribution)).foldl JSNum.add (.num 0) ∧
    r.evNet = r.evGross.sub g.ticketPrice := by
  have hresolved : ∀ t ∈ resolveTicketValues g.ticketPrice g.tiers,
      t.isTicket = true → t.value = g.ticketPrice := by
    intro t ht htk
    unfold resolveTicketValues at ht
    rw [List.mem_map] at ht
    obtain ⟨t0, ht0, hteq⟩ := ht
    rcases h0 : t0.isTicket with _ | _
    · rw [resolveTier_of_not_ticket _ _ h0] at hteq
      rw [← hteq] at htk
      exact absurd htk (by rw [h0]; simp)
    · rw [← hteq]
      exact resolveTier_value_of_ticket _ _ h0
  obtain ⟨hpre, M, method, hP, hM, hr⟩ := computeEV_ok_inv h
  subst hr
  refine ⟨fun v tk => adjustValue_eq_spec o tk v, rfl, ?_, ?_, hresolved, ?_, ?_, ?_, ?_⟩
  · simp [mkEVResult]
  · intro t
    exact tierResult_adjusted o _ t
  · intro t ht htk
    rw [tierResult_adjusted, htk]
    simp only [specAdjust, if_pos]
    exact hresolved t ht htk
  · intro t
    exact tierResult_contribution o _ t
  · simp [mkEVResult, sumContrib]
  · simp [mkEVResult, sumContrib]

/-- C2 witness: `claim_C2` applied to `w2Game`, whose `computeEV` result is
the explicit record `w2Res`. -/
theorem claim_C2_witness :
    adjustValue (.num 600) false o0 = specAdjust o0 false (.num 600) ∧
    w2Res.evNet = w2Res.evGross.sub w2Game.ticketPrice := by
  have h := claim_C2 w2Game o0 w2Res (by with_unfolding_all decide)
  exact ⟨h.1 (.num 600) false, h.2.2.2.2.2.2.2.2⟩

/-- C8: `computeEV` reports failures as values, never by throwing (it is a
total function into `EVOut`): a falsy ticket price or an empty tier list
yields exactly the precondition error string; inputs passing the
precondition where no strategy yields a positive finite pool yield exactly
the (distinct) estimation-failure string; and whenever some strategy yields
a positive finite pool a result record is returned. -/
theorem claim_C8 (g : Game) (o : EVOptions) :
    missingMsg ≠ estimateMsg ∧
    ((computeEV g o).2 = .err missingMsg ↔
      (¬ JSNum.Truthy g.ticketPrice ∨ g.tiers = [])) ∧
    ((computeEV g o).2 = .err estimateMsg ↔ (EVPre g ∧ ¬ StrategySucceeds g)) ∧
    ((∃ r, (computeEV g o).2 = .ok r) ↔ (EVPre g ∧ StrategySucceeds g)) := by
  refine ⟨by decide, ?_⟩
  by_cases hpre : EVPre g
  · by_cases hstrat : StrategySucceeds g
    · obtain ⟨M, method, hP, hM, hEq⟩ := computeEV_ok_of o hpre hstrat
      rw [hEq]
      refine ⟨iff_of_false (by simp) ((EVPre_iff g).mpr hpre),
        iff_of_false (by simp) (fun hc => hc.2 hstrat),
        iff_of_true ⟨_, rfl⟩ ⟨hpre, hstrat⟩⟩
    · have hA : ∀ m, anchorM g.tiers = some m → ¬ PositiveM m :=
        fun m hm hp => hstrat (Or.inl ⟨m, hm, hp⟩)
      have hE : tierEstimates g.tiers = [] := by
        by_contra hne
        exact hstrat (Or.inr hne)
      have hout : (computeEV g o).2 = .err estimateMsg := by
        rcases hA0 : anchorM g.tiers with _ | m
        · rw [computeEV_err_none hpre
            (by rw [estimatePool_fail_none (by rw [anchorM_resolve, hA0])
              (by rw [tierEstimates_resolve, hE])])]
        · rw [computeEV_err_bad hpre
            (estimatePool_fail_bad (by rw [anchorM_resolve, hA0]) (hA m hA0)
              (by rw [tierEstimates_resolve, hE])) (hA m hA0)]
      rw [hout]
      refine ⟨iff_of_false (by simp [missingMsg, estimateMsg])
          ((EVPre_iff g).mpr hpre),
        iff_of_true rfl ⟨hpre, hstrat⟩,
        iff_of_false (by simp) (fun hc => hstrat hc.2)⟩
  · have hcond : ¬ JSNum.Truthy g.ticketPrice ∨ g.tiers = [] :=
      Decidable.of_not_not fun hc => hpre ((EVPre_iff g).mp hc)
    rw [computeEV_pre_fail hcond]
    exact ⟨iff_of_true rfl hcond,
      iff_of_false (by simp [missingMsg, estimateMsg]) (fun hc => hpre hc.1),
      iff_of_false (by simp) (fun hc => hpre hc.1)⟩

/-- C8 witness: `claim_C8` applied to `w2Game`, on which the median
strategy succeeds and a result record is returned. -/
theorem claim_C8_witness :
    ∃ r, (computeEV w2Game o0).2 = .ok r := by
  refine ((claim_C8 w2Game o0).2.2.2).mpr
    ⟨by with_unfolding_all decide, Or.inr (by with_unfolding_all decide)⟩

/-- C9: recomputation is safe despite the in-place ticket-value resolution:
running `computeEV` again on the game record returned by a first run, with
the same options, returns the identical (game record, outcome) pair — the
resolution is idempotent and the outcome is a function of the resolved
record. -/
theorem claim_C9 (g : Game) (o : EVOptions) :
    computeEV ((computeEV g o).1) o = computeEV g o := by
  by_cases hc : ¬ JSNum.Truthy g.ticketPrice ∨ g.tiers = []
  · rw [computeEV_pre_fail hc]
    exact computeEV_pre_fail hc
  · have hc2 : ¬ (¬ JSNum.Truthy g.ticketPrice ∨
        resolveTicketValues g.ticketPrice g.tiers = []) := by
      rw [not_or] at hc ⊢
      exact ⟨hc.1, fun hnil => hc.2 ((resolveTicketValues_eq_nil _ _).mp hnil)⟩
    have h1 : computeEV g o =
        ({ g with tiers := resolveTicketValues g.ticketPrice g.tiers },
          evOutcome g.ticketPrice (resolveTicketValues g.ticketPrice g.tiers) o) := by
      unfold computeEV
      rw [if_neg hc]
    have h2 : computeEV
        ({ g with tiers := resolveTicketValues g.ticketPrice g.tiers } : Game) o =
        ({ g with tiers := resolveTicketValues g.ticketPrice g.tiers },
          evOutcome g.ticketPrice (resolveTicketValues g.ticketPrice g.tiers) o) := by
      unfold computeEV
      rw [if_neg hc2]
      simp only [resolveTicketValues_idem]
    rw [h1, h2]

/-- C10: a non-ticket tier whose value is `NaN` is not dropped by
`computeEV`: whenever the precondition holds and some estimation strategy
succeeds (estimation never reads tier values), the result is a success
record, the tier's adjusted value and EV contribution are `NaN`, and the
`NaN` propagates to both the gross and the net EV — no error value is
reported. -/
theorem claim_C10 (g : Game) (o : EVOptions) (t : Tier)
    (hmem : t ∈ g.tiers) (htk : t.isTicket = false) (hv : t.value = .nan)
    (hpre : JSNum.Truthy g.ticketPrice) (hstrat : StrategySucceeds g) :
    EVOut.isOk (computeEV g o).2 = true ∧
    EVOut.grossOf (computeEV g o).2 = some .nan ∧
    EVOut.netOf (computeEV g o).2 = some .nan ∧
    ∃ tr ∈ (EVOut.tiersOf (computeEV g o).2).getD [],
      tr.isTicket = false ∧ tr.value = .nan ∧ tr.adjustedValue = .nan ∧
      tr.evContribution = .nan := by
  have hEVpre : EVPre g := ⟨hpre, by intro h0; rw [h0] at hmem; cases hmem⟩
  obtain ⟨M, method, hP, hM, hEq⟩ := computeEV_ok_of o hEVpre hstrat
  rw [hEq]
  have hmem2 : t ∈ resolveTicketValues g.ticketPrice g.tiers := by
    unfold resolveTicketValues
    rw [List.mem_map]
    exact ⟨t, hmem, resolveTier_of_not_ticket _ _ htk⟩
  have htr_adj : (tierResult o M t).adjustedValue = .nan := by
    rw [tierResult_adjusted]
    simp [specAdjust, htk, hv, JSNum.Lt]
  have htr_con : (tierResult o M t).evContribution = .nan := by
    rw [tierResult_contribution, htr_adj, JSNum.mul_nan_right]
  have hgross :
      sumContrib ((resolveTicketValues g.ticketPrice g.tiers).map (tierResult o M)) =
        .nan := by
    unfold sumContrib
    apply foldl_add_of_mem_nan
    rw [List.mem_map]
    exact ⟨tierResult o M t, List.mem_map_of_mem _ hmem2, htr_con⟩
  refine ⟨by simp [EVOut.isOk], ?_, ?_, ?_⟩
  · simp only [EVOut.grossOf, mkEVResult]
    rw [hgross]
  · simp only [EVOut.netOf, mkEVResult]
    rw [hgross, JSNum.sub_nan_left]
  · refine ⟨tierResult o M t, ?_, htk, hv, htr_adj, htr_con⟩
    simp only [EVOut.tiersOf, mkEVResult, Option.getD_some]
    exact List.mem_map_of_mem _ hmem2

/-- C10 witness: `claim_C10` applied to `w10Game`, whose only tier is a
non-ticket tier with a `NaN` value. -/
theorem claim_C10_witness :
    EVOut.grossOf (computeEV w10Game o0).2 = some .nan ∧
    EVOut.netOf (computeEV w10Game o0).2 = some .nan := by
  have h := claim_C10 w10Game o0 w10Tier (by with_unfolding_all decide) rfl rfl
    (by with_unfolding_all decide) (Or.inr (by with_unfolding_all decide))
  exact ⟨h.2.1, h.2.2.1⟩

/-- C3: for every game `computeOverview` accepts, with the valid tiers being
those with positive (resolved) total and positive numeric odds: `M0` is the
arithmetic mean of `odds_i * total_i` over the valid tiers, `Mhat` is
`M0 * (sum of remaining / sum of total)`, the calculated odds value is
`Mhat / sum of remaining`, claimed gross EV is the sum over valid tiers of
`adjustedValue * total` divided by `M0`, calculated gross EV is the sum of
`adjustedValue * remaining` divided by `Mhat`, and each net EV is the
corresponding gross EV minus the ticket price. -/
theorem claim_C3 (g : OGame) (o : EVOptions) (r : OResult)
    (h : computeOverview g o = some r) :
    oM0 g = (jsumN ((oValid g).map fun t => t.odds.mul (.num t.total))).div
      (.num ((oValid g).length)) ∧
    oTsum g = ((oValid g).map (·.total)).sum ∧
    oRsum g = ((oValid g).map (·.remaining)).sum ∧
    oMhat g = (oM0 g).mul (.num (oRsum g / oTsum g)) ∧
    r.calcOddsVal = (oMhat g).div (.num (oRsum g)) ∧
    r.claimedEV = ((((oValid g).map
        (fun t => (adjustValue t.rawValue t.isTicket o).mul (.num t.total))).foldr
        JSNum.add (.num 0)).div (oM0 g)).sub g.price ∧
    r.calcEV = ((((oValid g).map
        (fun t => (adjustValue t.rawValue t.isTicket o).mul (.num t.remaining))).foldr
        JSNum.add (.num 0)).div (oMhat g)).sub g.price := by
  have hr := computeOverview_some_eq h
  subst hr
  refine ⟨by simp [oM0, List.length_map], by unfold oTsum; exact qsumQ_eq_sum _,
    by unfold oRsum; exact qsumQ_eq_sum _, rfl, rfl, ?_, ?_⟩
  · show oClaimedNet g o = _
    unfold oClaimedNet oClaimedGross
    rw [jsumN_eq_foldr]
  · show oCalcNet g o = _
    unfold oCalcNet oCalcGross
    rw [jsumN_eq_foldr]

/-- C3 witness: `claim_C3` applied to the concrete game `g3`, whose
`computeOverview` row is the explicit record `r3`. -/
theorem claim_C3_witness :
    r3.calcOddsVal = (oMhat g3).div (.num (oRsum g3)) ∧
    oMhat g3 = (oM0 g3).mul (.num (oRsum g3 / oTsum g3)) := by
  have hr : oResultOf g3 o0 = r3 := by
    apply OResult.ext <;> with_unfolding_all decide
  have hsome : computeOverview g3 o0 = some r3 := by
    rw [computeOverview_some_of (by with_unfolding_all decide), hr]
  have h := claim_C3 g3 o0 r3 hsome
  exact ⟨h.2.2.2.2.1, h.2.2.2.1⟩

/-- C6: for every game `computeOverview` accepts, the delta percent equals
`((calcNet - claimedNet) / |claimedNet|) * 100` when `claimedNet !== 0`
(JavaScript strict inequality, so a `NaN` claimed net takes the formula
branch), and is exactly `0` when the claimed net EV is exactly `0` — never
an infinity or a `NaN` in that case. -/
theorem claim_C6 (g : OGame) (o : EVOptions) (r : OResult)
    (h : computeOverview g o = some r) :
    r.deltaPercent =
      (if ¬ JSNum.Seq r.claimedEV (.num 0) then
        ((r.calcEV.sub r.claimedEV).div r.claimedEV.abs).mul (.num 100)
      else .num 0) ∧
    (r.claimedEV = .num 0 → r.deltaPercent = .num 0) := by
  have hr := computeOverview_some_eq h
  subst hr
  constructor
  · rfl
  · intro h0
    have h0' : oClaimedNet g o = .num 0 := h0
    show oDelta g o = .num 0
    unfold oDelta
    rw [h0', if_neg (fun hcon => hcon rfl)]

/-- C6 witness: `claim_C6` applied to `g6`, whose claimed net EV is exactly
`0` and whose delta percent is exactly `0`. -/
theorem claim_C6_witness : r6.deltaPercent = .num 0 := by
  have hr : oResultOf g6 o0 = r6 := by
    apply OResult.ext <;> with_unfolding_all decide
  have hsome : computeOverview g6 o0 = some r6 := by
    rw [computeOverview_some_of (by with_unfolding_all decide), hr]
  exact (claim_C6 g6 o0 r6 hsome).2 rfl

/-- C7 (amended): `computeOverview` skips a game (returns no result) exactly
when its price is falsy, its tier array is missing or empty, it has no
valid tier, or the valid tiers' total sum, remaining sum or `M0` is zero;
a batch of five games where one has `tiers: []` yields exactly four
results, the valid games' results in input order (the sort applied by the
rendering layer afterwards is a separate display step). -/
theorem claim_C7 :
    (∀ (g : OGame) (o : EVOptions), computeOverview g o = none ↔ OSkip g) ∧
    (batchResults demoBatch o0).length = 4 ∧
    batchResults demoBatch o0 = batchResults demoValid o0 ∧
    computeOverview gEmptyTiers o0 = none := by
  have h1 : computeOverview gBatch1 o0 = some (oResultOf gBatch1 o0) :=
    computeOverview_some_of (by with_unfolding_all decide)
  have h3 : computeOverview gBatch3 o0 = some (oResultOf gBatch3 o0) :=
    computeOverview_some_of (by with_unfolding_all decide)
  have h4 : computeOverview gBatch4 o0 = some (oResultOf gBatch4 o0) :=
    computeOverview_some_of (by with_unfolding_all decide)
  have h5 : computeOverview gBatch5 o0 = some (oResultOf gBatch5 o0) :=
    computeOverview_some_of (by with_unfolding_all decide)
  have hbad : computeOverview gEmptyTiers o0 = none :=
    (computeOverview_none_iff gEmptyTiers o0).mpr (by with_unfolding_all decide)
  refine ⟨computeOverview_none_iff, ?_, ?_, hbad⟩
  · simp [batchResults, demoBatch, h1, h3, h4, h5, hbad]
  · simp [batchResults, demoBatch, demoValid, h1, h3, h4, h5, hbad]

/-- C7 is false as frozen: `gPrice0` has a valid tier, nonzero total and
remaining sums and a nonzero `M0` — none of the four skip conditions the
claim lists — yet it produces no result, because its price is `0`. -/
theorem claim_C7_cex :
    oValid gPrice0 ≠ [] ∧ oTsum gPrice0 ≠ 0 ∧ oRsum gPrice0 ≠ 0 ∧
    ¬ JSNum.Seq (oM0 gPrice0) (.num 0) ∧
    computeOverview gPrice0 o0 = none := by
  refine ⟨by with_unfolding_all decide, by with_unfolding_all decide,
    by with_unfolding_all decide, by with_unfolding_all decide,
    (computeOverview_none_iff gPrice0 o0).mpr (by with_unfolding_all decide)⟩

/-- C7 witness: the skip characterization of `claim_C7` applied to the
zero-price game. -/
theorem claim_C7_witness : computeOverview gPrice0 o0 = none :=
  (claim_C7.1 gPrice0 o0).mpr (by with_unfolding_all decide)
